import Mathlib

set_option maxHeartbeats 1000000

/-! Shallow embedding of the SaaS user-management automation tool:
`data_processor.py` (record normalization, persistence, dataset comparison),
`ai_agent.py` (oracle response handling, action validation) and the workflow
control flow of `main.py` (provision / deprovision orchestration). -/

/-! ## Python text primitives (ASCII-faithful) -/

/-- Whitespace test used by Python `str.strip()` / `str.split()`
(ASCII classes, matching `Char.isWhitespace`). -/
def isWs (c : Char) : Bool := c.isWhitespace

/-- Accumulator pass of Python `text.split()` (no separator argument):
split on whitespace runs, dropping empty pieces; `acc` holds the current
word reversed. -/
def wordsAux : List Char → List Char → List (List Char)
  | [], acc => if acc = [] then [] else [acc.reverse]
  | c :: cs, acc =>
    if isWs c then
      if acc = [] then wordsAux cs [] else acc.reverse :: wordsAux cs []
    else wordsAux cs (c :: acc)

/-- Python `text.split()`: whitespace-delimited words. -/
def pyWords (l : List Char) : List (List Char) := wordsAux l []

/-- Python `" ".join(ws)`. -/
def joinSp : List (List Char) → List Char
  | [] => []
  | [w] => w
  | w :: ws => w ++ ' ' :: joinSp ws

/-- Python `" ".join(text.split())`: collapse whitespace runs to single
spaces and trim the ends. -/
def collapseWs (l : List Char) : List Char := joinSp (pyWords l)

/-- Python `str.replace(a, b)` for single characters. -/
def replCh (a b : Char) (l : List Char) : List Char :=
  l.map fun c => if c = a then b else c

/-- Python `str.strip()`: drop leading and trailing whitespace. -/
def trimWs (l : List Char) : List Char :=
  ((l.dropWhile isWs).reverse.dropWhile isWs).reverse

/-- Python `str.strip()` on `String`. -/
def pyStrip (s : String) : String := String.mk (trimWs s.data)

/-- Python `str.upper()` (ASCII case mapping). -/
def pyUpper (s : String) : String := String.mk (s.data.map Char.toUpper)

/-- Python single-character containment `c in s`. -/
def pyInChar (c : Char) (s : String) : Bool := s.data.contains c

/-- Python substring test `pat in l`, on character lists. -/
def containsSeq (pat : List Char) : List Char → Bool
  | [] => pat.isEmpty
  | c :: cs => pat.isPrefixOf (c :: cs) || containsSeq pat cs

/-! ## data_processor.py: record normalization -/

/-- `DataProcessor.clean_text` (data_processor.py:69-81), on the
`None`-or-`str` values it receives from `process_raw_user_data`:
`None`, `"null"` and `""` become `None`; otherwise the text is stripped,
`"\n"`/`"\t"` are replaced by spaces, whitespace runs are collapsed by
`" ".join(text.split())`, and an all-whitespace result becomes `None`. -/
def clean_text : Option String → Option String
  | none => none
  | some s =>
    if s = "null" ∨ s = "" then none
    else
      let cleaned :=
        String.mk (collapseWs (replCh '\t' ' ' (replCh '\n' ' ' (trimWs s.data))))
      if cleaned = "" then none else some cleaned

/-- A JSON scalar as handed over by the extraction oracle: `null` or a
string. -/
inductive JVal
  | null
  | str (s : String)
deriving DecidableEq, Repr

/-- One raw extracted entry (a Python dict from the oracle); `none` marks an
absent key. -/
structure RawUser where
  email : Option JVal := none
  name : Option JVal := none
  role : Option JVal := none
  last_login : Option JVal := none
  status : Option JVal := none
deriving DecidableEq, Repr

/-- The `UserRecord` dataclass (data_processor.py:12-21). -/
structure UserRecord where
  email : String
  name : Option String := none
  role : Option String := none
  last_login : Option String := none
  status : Option String := none
  extracted_at : Option String := none
  source_saas : Option String := none
deriving DecidableEq, Repr

/-- `user_data.get(key)`: an absent key and a JSON `null` both reach
`clean_text` as Python `None`. -/
def getField : Option JVal → Option String
  | none => none
  | some JVal.null => none
  | some (JVal.str s) => some s

/-- `user_data.get("status", "Unknown")`: the `"Unknown"` default fires only
when the key is absent. -/
def getStatusArg : Option JVal → Option String
  | none => some "Unknown"
  | some JVal.null => none
  | some (JVal.str s) => some s

/-- `user_data.get("email", "")`; a JSON-null email makes `.strip()` raise
`AttributeError`, which the per-entry `except` turns into a skip (`none`
here). -/
def emailArg : Option JVal → Option String
  | none => some ""
  | some JVal.null => none
  | some (JVal.str s) => some s

/-- One iteration of the loop in `DataProcessor.process_raw_user_data`
(data_processor.py:41-64); `none` when the entry is skipped. -/
def processEntry (u : RawUser) (now saas : String) : Option UserRecord :=
  match emailArg u.email with
  | none => none
  | some e =>
    let email := pyStrip e
    if email = "" ∨ pyInChar '@' email = false then none
    else some {
      email := email
      name := clean_text (getField u.name)
      role := clean_text (getField u.role)
      last_login := clean_text (getField u.last_login)
      status := clean_text (getStatusArg u.status)
      extracted_at := some now
      source_saas := some saas }

/-- `DataProcessor.process_raw_user_data` (data_processor.py:34-67). -/
def process_raw_user_data (raws : List RawUser) (saas now : String) :
    List UserRecord :=
  raws.filterMap fun u => processEntry u now saas

/-! ## data_processor.py: persistence -/

/-- One serialized user object in the JSON file; JSON `null` ↔ `none`
(`json.dump` / `json.load` round-trip Python `str` and `None` exactly). -/
structure JsonUser where
  email : String
  name : Option String
  role : Option String
  last_login : Option String
  status : Option String
  extracted_at : Option String
  source_saas : Option String
deriving DecidableEq, Repr

/-- The `users` array written by `DataProcessor.save_to_json`
(data_processor.py:83-110); the metadata object is ignored on reload. -/
def save_to_json (users : List UserRecord) : List JsonUser :=
  users.map fun u =>
    { email := u.email, name := u.name, role := u.role
      last_login := u.last_login, status := u.status
      extracted_at := u.extracted_at, source_saas := u.source_saas }

/-- The `.json` branch of `DataProcessor.load_existing_data`
(data_processor.py:146-152): `UserRecord(**user_dict)` for each entry. -/
def load_existing_data_json (file : List JsonUser) : List UserRecord :=
  file.map fun j =>
    { email := j.email, name := j.name, role := j.role
      last_login := j.last_login, status := j.status
      extracted_at := j.extracted_at, source_saas := j.source_saas }

/-- One row of the CSV file: every cell is a string. -/
structure CsvRow where
  email : String
  name : String
  role : String
  last_login : String
  status : String
  extracted_at : String
  source_saas : String
deriving DecidableEq, Repr

/-- How `csv.DictWriter.writerow` renders one field of `asdict(user)`:
Python `None` is written as the empty cell. -/
def csvCell : Option String → String
  | none => ""
  | some s => s

/-- `DataProcessor.save_to_csv` (data_processor.py:112-139). -/
def save_to_csv (users : List UserRecord) : List CsvRow :=
  users.map fun u =>
    { email := u.email, name := csvCell u.name, role := csvCell u.role
      last_login := csvCell u.last_login, status := csvCell u.status
      extracted_at := csvCell u.extracted_at
      source_saas := csvCell u.source_saas }

/-- The per-cell rewrite in the `.csv` branch of `load_existing_data`
(data_processor.py:158-161): `''` and `'None'` become Python `None`. -/
def csvParseCell (s : String) : Option String :=
  if s = "" ∨ s = "None" then none else some s

/-- What `UserRecord(**row)` holds after the `.csv` branch of
`load_existing_data` (data_processor.py:154-162): the dataclass performs no
type check, so even `email` can come back as `None`. -/
structure LoadedUserRecord where
  email : Option String
  name : Option String
  role : Option String
  last_login : Option String
  status : Option String
  extracted_at : Option String
  source_saas : Option String
deriving DecidableEq, Repr

/-- The `.csv` branch of `DataProcessor.load_existing_data`. -/
def load_existing_data_csv (rows : List CsvRow) : List LoadedUserRecord :=
  rows.map fun r =>
    { email := csvParseCell r.email, name := csvParseCell r.name
      role := csvParseCell r.role, last_login := csvParseCell r.last_login
      status := csvParseCell r.status
      extracted_at := csvParseCell r.extracted_at
      source_saas := csvParseCell r.source_saas }

/-! ## data_processor.py: dataset comparison -/

/-- Result dictionary of `DataProcessor.compare_datasets`; the email
collections are Python `set`s. -/
structure ComparisonResult where
  dataset1_count : Nat
  dataset2_count : Nat
  added_users : Finset String
  removed_users : Finset String
  common_users_count : Nat

/-- `set(user.email for user in dataset)`. -/
def emailSet (d : List UserRecord) : Finset String :=
  (d.map UserRecord.email).toFinset

/-- `DataProcessor.compare_datasets` (data_processor.py:215-238). -/
def compare_datasets (d1 d2 : List UserRecord) : ComparisonResult :=
  { dataset1_count := d1.length
    dataset2_count := d2.length
    added_users := emailSet d2 \ emailSet d1
    removed_users := emailSet d1 \ emailSet d2
    common_users_count := (emailSet d1 ∩ emailSet d2).card }

/-! ## ai_agent.py: oracle handling -/

/-- The oracle's `elements` dictionary in `AIAgent.find_ui_elements`
(ai_agent.py:98-119); every key is optional in the requested schema. -/
structure ElementsDict where
  primary_selector : Option String := none
  alternative_selectors : Option (List String) := none
  element_type : Option String := none
  confidence : Option ℚ := none
deriving DecidableEq, Repr

/-- `AIAgent.find_ui_elements` (ai_agent.py:93-150): an oracle failure, a
missing function call, or a response without an `elements` value all
collapse to the empty dict; a returned dict is passed through unchanged
(no field, in particular not `confidence`, is inspected). -/
def find_ui_elements : Except Unit (Option ElementsDict) → ElementsDict
  | Except.error _ => {}
  | Except.ok none => {}
  | Except.ok (some e) => e

/-- Python truthiness of the `ui_elements` dict. -/
def dictTruthy (e : ElementsDict) : Bool :=
  e.primary_selector.isSome || e.alternative_selectors.isSome ||
    e.element_type.isSome || e.confidence.isSome

/-- The orchestrator's acceptance test for an oracle candidate:
`if ui_elements and "primary_selector" in ui_elements` (main.py:154, 186,
262, 276, 297). -/
def candidateUsable (e : ElementsDict) : Bool :=
  dictTruthy e && e.primary_selector.isSome

/-- The fixed success token of `AIAgent.validate_action_success`
(ai_agent.py:250). -/
def successToken : String := "SUCCESS"

/-- `AIAgent.validate_action_success` (ai_agent.py:220-254): the oracle
reply is normalized by `.strip().upper()` and then tested with the
substring check `"SUCCESS" in result`; any exception returns `False`. -/
def validate_action_success : Except Unit String → Bool
  | Except.error _ => false
  | Except.ok content => containsSeq successToken.data (pyUpper (pyStrip content)).data

/-! ## main.py: workflow orchestration

The two mutating workflows are embedded as functions of an environment
that fixes, in program order, the outcome of every external collaborator
call (browser actions, oracle responses); each run yields the returned
boolean and the ordered trace of observable steps. -/

/-- The `SaaSConfig` dataclass (config.py:8-19). -/
structure SaaSConfig where
  name : String
  login_url : String
  username_selector : String
  password_selector : String
  login_button_selector : String
  users_page_url : String
  user_table_selector : String
  add_user_button : String
  user_form_selectors : List (String × String)
deriving DecidableEq, Repr

/-- The five `find_ui_elements` call sites of `main.py`, identified by their
task description. -/
inductive OracleTask
  | addUserButton
  | submitButton
  | userRow
  | deleteButton
  | confirmButton
deriving DecidableEq, Repr

/-- Labels of the page-content captures in `main.py`. -/
inductive SnapTag
  | before
  | fallbackPage
  | submitPage
  | updated
  | dialog
  | afterAction
deriving DecidableEq, Repr

/-- Observable steps of one workflow run, in program order. -/
inductive Event
  | login (ok : Bool)
  | navigate (ok : Bool)
  | snapshot (tag : SnapTag)
  | click (selector : String) (ok : Bool)
  | oracleFind (task : OracleTask) (resp : ElementsDict)
  | fillForm (ok : Bool)
  | validate (result : Bool)
deriving DecidableEq, Repr

/-- Outcomes of the external calls consumed by
`SaaSAutomationOrchestrator.provision_user` (main.py:108-220), in program
order. -/
structure ProvisionEnv where
  login_ok : Bool
  nav_ok : Bool
  static_click_ok : Bool
  add_oracle : Except Unit (Option ElementsDict)
  fallback_click_ok : Bool
  fill_ok : Bool
  submit_oracle : Except Unit (Option ElementsDict)
  submit_click_ok : Bool
  validate_resp : Except Unit String

/-- `provision_user` from the form fill on (main.py:163-216): fill the
form, resolve the submit button via the oracle, click it, then capture the
after snapshot and validate. -/
def afterAdd (env : ProvisionEnv) : Bool × List Event :=
  if env.fill_ok = false then (false, [Event.fillForm false])
  else
    let elems := find_ui_elements env.submit_oracle
    let base := [Event.fillForm true, Event.snapshot SnapTag.submitPage,
                 Event.oracleFind OracleTask.submitButton elems]
    if candidateUsable elems then
      if env.submit_click_ok = false then
        (false, base ++ [Event.click (elems.primary_selector.getD "") false])
      else
        let ok := validate_action_success env.validate_resp
        (ok, base ++ [Event.click (elems.primary_selector.getD "") true,
                      Event.snapshot SnapTag.afterAction, Event.validate ok])
    else (false, base)

/-- `SaaSAutomationOrchestrator.provision_user` (main.py:108-220): login,
navigate, before snapshot, static add-user click with a single oracle
fallback, then `afterAdd`. -/
def provision_user (cfg : SaaSConfig) (env : ProvisionEnv) : Bool × List Event :=
  if env.login_ok = false then (false, [Event.login false])
  else if env.nav_ok = false then (false, [Event.login true, Event.navigate false])
  else
    let pre := [Event.login true, Event.navigate true,
                Event.snapshot SnapTag.before,
                Event.click cfg.add_user_button env.static_click_ok]
    if env.static_click_ok then
      let res := afterAdd env
      (res.1, pre ++ res.2)
    else
      let elems := find_ui_elements env.add_oracle
      let pre2 := pre ++ [Event.snapshot SnapTag.fallbackPage,
                          Event.oracleFind OracleTask.addUserButton elems]
      if candidateUsable elems then
        if env.fallback_click_ok then
          let res := afterAdd env
          (res.1, pre2 ++ Event.click (elems.primary_selector.getD "") true :: res.2)
        else (false, pre2 ++ [Event.click (elems.primary_selector.getD "") false])
      else (false, pre2)

/-- Outcomes of the external calls consumed by
`SaaSAutomationOrchestrator.deprovision_user` (main.py:222-322), in program
order. -/
structure DeprovisionEnv where
  login_ok : Bool
  nav_ok : Bool
  row_oracle : Except Unit (Option ElementsDict)
  row_click_ok : Bool
  delete_oracle : Except Unit (Option ElementsDict)
  delete_click_ok : Bool
  confirm_oracle : Except Unit (Option ElementsDict)
  confirm_click_ok : Bool
  validate_resp : Except Unit String

/-- `SaaSAutomationOrchestrator.deprovision_user` (main.py:222-322).  The
row click result (main.py:267) and the confirmation click result
(main.py:298) are ignored by the code; the confirmation control is
optional. -/
def deprovision_user (env : DeprovisionEnv) : Bool × List Event :=
  if env.login_ok = false then (false, [Event.login false])
  else if env.nav_ok = false then (false, [Event.login true, Event.navigate false])
  else
    let rowE := find_ui_elements env.row_oracle
    let pre := [Event.login true, Event.navigate true,
                Event.snapshot SnapTag.before,
                Event.oracleFind OracleTask.userRow rowE]
    if candidateUsable rowE = false then (false, pre)
    else
      let delE := find_ui_elements env.delete_oracle
      let pre2 := pre ++ [Event.click (rowE.primary_selector.getD "") env.row_click_ok,
                          Event.snapshot SnapTag.updated,
                          Event.oracleFind OracleTask.deleteButton delE]
      if candidateUsable delE = false then (false, pre2)
      else if env.delete_click_ok = false then
        (false, pre2 ++ [Event.click (delE.primary_selector.getD "") false])
      else
        let cfE := find_ui_elements env.confirm_oracle
        let pre3 := pre2 ++ [Event.click (delE.primary_selector.getD "") true,
                             Event.snapshot SnapTag.dialog,
                             Event.oracleFind OracleTask.confirmButton cfE]
        let pre4 :=
          if candidateUsable cfE then
            pre3 ++ [Event.click (cfE.primary_selector.getD "") env.confirm_click_ok]
          else pre3
        let ok := validate_action_success env.validate_resp
        (ok, pre4 ++ [Event.snapshot SnapTag.afterAction, Event.validate ok])

/-- The oracle candidates a trace produced for a given resolution task. -/
def findsFor (task : OracleTask) (tr : List Event) : List ElementsDict :=
  tr.filterMap fun e =>
    match e with
    | Event.oracleFind t r => if t = task then some r else none
    | _ => none

/-! ## Helper lemmas on the text primitives -/

/-- Every word produced by `wordsAux` over a whitespace-free accumulator is
nonempty and whitespace-free. -/
lemma wordsAux_sound (l : List Char) :
    ∀ acc, (∀ c ∈ acc, isWs c = false) →
      ∀ w ∈ wordsAux l acc, w ≠ [] ∧ ∀ c ∈ w, isWs c = false := by
  induction l with
  | nil =>
    intro acc hacc w hw
    by_cases h : acc = []
    · simp [wordsAux, h] at hw
    · simp only [wordsAux, if_neg h, List.mem_singleton] at hw
      subst hw
      refine ⟨by simpa using h, ?_⟩
      intro c hc
      exact hacc c (List.mem_reverse.mp hc)
  | cons c cs ih =>
    intro acc hacc w hw
    by_cases hws : isWs c
    · by_cases h : acc = []
      · simp only [wordsAux, if_pos hws, if_pos h] at hw
        exact ih [] (by simp) w hw
      · simp only [wordsAux, if_pos hws, if_neg h, List.mem_cons] at hw
        rcases hw with hw | hw
        · subst hw
          refine ⟨by simpa using h, ?_⟩
          intro d hd
          exact hacc d (List.mem_reverse.mp hd)
        · exact ih [] (by simp) w hw
    · simp only [wordsAux, if_neg hws] at hw
      refine ih (c :: acc) ?_ w hw
      intro d hd
      rcases List.mem_cons.mp hd with hd | hd
      · subst hd; simpa using hws
      · exact hacc d hd

/-- `wordsAux` consumes a whitespace-free block into the accumulator. -/
lemma wordsAux_skip_word :
    ∀ w : List Char, (∀ c ∈ w, isWs c = false) →
      ∀ l acc, wordsAux (w ++ l) acc = wordsAux l (w.reverse ++ acc) := by
  intro w
  induction w with
  | nil => intro _ l acc; simp
  | cons c w' ih =>
    intro hw l acc
    have hc : isWs c = false := hw c (by simp)
    have h1 : wordsAux ((c :: w') ++ l) acc = wordsAux (w' ++ l) (c :: acc) := by
      simp [wordsAux, hc]
    rw [h1, ih (fun d hd => hw d (by simp [hd])) l (c :: acc)]
    simp

/-- `pyWords` is a left inverse of `joinSp` on lists of nonempty,
whitespace-free words. -/
lemma pyWords_joinSp :
    ∀ ws : List (List Char),
      (∀ w ∈ ws, w ≠ [] ∧ ∀ c ∈ w, isWs c = false) →
      pyWords (joinSp ws) = ws := by
  intro ws
  induction ws with
  | nil => intro _; rfl
  | cons w ws ih =>
    intro h
    obtain ⟨hw1, hw2⟩ := h w (by simp)
    cases ws with
    | nil =>
      show wordsAux (joinSp [w]) [] = [w]
      have : joinSp [w] = w ++ [] := by simp [joinSp]
      rw [this, wordsAux_skip_word w hw2 [] []]
      simp [wordsAux, hw1]
    | cons x ws' =>
      show wordsAux (joinSp (w :: x :: ws')) [] = w :: x :: ws'
      have hj : joinSp (w :: x :: ws') = w ++ ' ' :: joinSp (x :: ws') := by
        simp [joinSp]
      rw [hj, wordsAux_skip_word w hw2 (' ' :: joinSp (x :: ws')) []]
      have hsp : isWs ' ' = true := by decide
      have hrev : w.reverse ++ [] ≠ [] := by simpa using hw1
      simp only [wordsAux, hsp, if_pos, if_neg hrev]
      have := ih (fun u hu => h u (by simp [hu]))
      simp only [pyWords] at this
      simp [this]

/-- A character of `joinSp ws` is the separating space or a character of
one of the words. -/
lemma mem_joinSp {c : Char} :
    ∀ ws : List (List Char), c ∈ joinSp ws → c = ' ' ∨ ∃ w ∈ ws, c ∈ w := by
  intro ws
  induction ws with
  | nil => simp [joinSp]
  | cons w ws ih =>
    cases ws with
    | nil =>
      intro h
      right
      exact ⟨w, by simp, by simpa [joinSp] using h⟩
    | cons x ws' =>
      intro h
      have hj : joinSp (w :: x :: ws') = w ++ ' ' :: joinSp (x :: ws') := by
        simp [joinSp]
      rw [hj] at h
      rcases List.mem_append.mp h with h1 | h2
      · right; exact ⟨w, by simp, h1⟩
      · rcases List.mem_cons.mp h2 with h3 | h4
        · left; exact h3
        · rcases ih h4 with h5 | ⟨u, hu, hcu⟩
          · left; exact h5
          · right; exact ⟨u, by simp [hu], hcu⟩

/-- The reverse of `joinSp` over good words starts with a non-whitespace
character. -/
lemma joinSp_reverse_head :
    ∀ ws : List (List Char), ws ≠ [] →
      (∀ w ∈ ws, w ≠ [] ∧ ∀ c ∈ w, isWs c = false) →
      ∃ d t, (joinSp ws).reverse = d :: t ∧ isWs d = false := by
  intro ws
  induction ws with
  | nil => intro h; exact absurd rfl h
  | cons w ws' ih =>
    intro _ h
    cases ws' with
    | nil =>
      obtain ⟨hw1, hw2⟩ := h w (by simp)
      cases hr : w.reverse with
      | nil => exact absurd (by simpa using hr) hw1
      | cons d t =>
        refine ⟨d, t, by simp [joinSp, hr], hw2 d ?_⟩
        have hd : d ∈ w.reverse := by rw [hr]; simp
        exact List.mem_reverse.mp hd
    | cons x ws'' =>
      obtain ⟨d, t, heq, hd⟩ := ih (by simp) (fun u hu => h u (by simp [hu]))
      refine ⟨d, t ++ ' ' :: w.reverse, ?_, hd⟩
      have hj : joinSp (w :: x :: ws'') = w ++ ' ' :: joinSp (x :: ws'') := by
        simp [joinSp]
      rw [hj]
      simp [List.reverse_append, heq]

/-- `dropWhile` is the identity on a list whose head fails the predicate. -/
lemma dropWhile_eq_self_of_head {p : Char → Bool} {d : Char} {t : List Char}
    (hd : p d = false) : (d :: t).dropWhile p = d :: t := by
  simp [List.dropWhile, hd]

/-- `trimWs` is the identity on the output of `joinSp` over good words. -/
lemma trimWs_joinSp (ws : List (List Char))
    (h : ∀ w ∈ ws, w ≠ [] ∧ ∀ c ∈ w, isWs c = false) :
    trimWs (joinSp ws) = joinSp ws := by
  cases ws with
  | nil => rfl
  | cons w ws' =>
    obtain ⟨hw1, hw2⟩ := h w (by simp)
    have hfront : (joinSp (w :: ws')).dropWhile isWs = joinSp (w :: ws') := by
      cases w with
      | nil => exact absurd rfl hw1
      | cons d t =>
        have hd : isWs d = false := hw2 d (by simp)
        cases ws' with
        | nil => exact dropWhile_eq_self_of_head hd
        | cons x ws'' =>
          have hj : joinSp ((d :: t) :: x :: ws'') =
              d :: (t ++ ' ' :: joinSp (x :: ws'')) := by simp [joinSp]
          rw [hj]
          exact dropWhile_eq_self_of_head hd
    obtain ⟨d, t, heq, hd⟩ := joinSp_reverse_head (w :: ws') (by simp) h
    unfold trimWs
    rw [hfront, heq, dropWhile_eq_self_of_head hd, ← heq, List.reverse_reverse]

/-- `replCh` is the identity when the replaced character does not occur. -/
lemma replCh_eq_self {a b : Char} :
    ∀ l : List Char, (∀ c ∈ l, c ≠ a) → replCh a b l = l := by
  intro l
  induction l with
  | nil => intro _; rfl
  | cons c t ih =>
    intro h
    have hc : c ≠ a := h c (by simp)
    simp only [replCh, List.map_cons, if_neg hc]
    have := ih fun d hd => h d (by simp [hd])
    simpa [replCh] using this

/-- The output of `collapseWs` is a fixed point of every stage of
`clean_text`. -/
lemma collapseWs_stages (m : List Char) :
    trimWs (collapseWs m) = collapseWs m ∧
    replCh '\n' ' ' (collapseWs m) = collapseWs m ∧
    replCh '\t' ' ' (collapseWs m) = collapseWs m ∧
    collapseWs (collapseWs m) = collapseWs m := by
  have hgood : ∀ w ∈ pyWords m, w ≠ [] ∧ ∀ c ∈ w, isWs c = false :=
    wordsAux_sound m [] (by simp)
  have hmem : ∀ c ∈ collapseWs m, c ≠ '\n' ∧ c ≠ '\t' := by
    intro c hc
    rcases mem_joinSp (pyWords m) hc with h1 | ⟨w, hw, hcw⟩
    · subst h1; exact ⟨by decide, by decide⟩
    · have hws := (hgood w hw).2 c hcw
      constructor
      · intro h; rw [h] at hws; exact absurd hws (by decide)
      · intro h; rw [h] at hws; exact absurd hws (by decide)
  refine ⟨trimWs_joinSp (pyWords m) hgood,
          replCh_eq_self _ (fun c hc => (hmem c hc).1),
          replCh_eq_self _ (fun c hc => (hmem c hc).2),
          ?_⟩
  show joinSp (pyWords (joinSp (pyWords m))) = joinSp (pyWords m)
  rw [pyWords_joinSp (pyWords m) hgood]

/-- `clean_text` is idempotent at every input whose cleaned form is not the
literal string `"null"`. -/
lemma clean_text_idem (t : Option String) (h : clean_text t ≠ some "null") :
    clean_text (clean_text t) = clean_text t := by
  cases t with
  | none => rfl
  | some s =>
    by_cases h1 : s = "null" ∨ s = ""
    · simp [clean_text, h1]
    · set m := replCh '\t' ' ' (replCh '\n' ' ' (trimWs s.data)) with hm
      have hres : clean_text (some s) =
          if String.mk (collapseWs m) = "" then none
          else some (String.mk (collapseWs m)) := by
        simp only [clean_text, if_neg h1]
      by_cases h2 : String.mk (collapseWs m) = ""
      · rw [hres, if_pos h2]; rfl
      · rw [hres, if_neg h2]
        have hnn : String.mk (collapseWs m) ≠ "null" := by
          intro hc
          apply h
          rw [hres, if_neg h2, hc]
        have hor : ¬ (String.mk (collapseWs m) = "null" ∨
            String.mk (collapseWs m) = "") := fun hc => hc.elim hnn h2
        obtain ⟨ht, hn, htb, hcc⟩ := collapseWs_stages m
        have hdata : (String.mk (collapseWs m)).data = collapseWs m := rfl
        simp only [clean_text, if_neg hor, hdata, ht, hn, htb, hcc, if_neg h2]

/-- An all-whitespace list has no words. -/
lemma wordsAux_all_ws :
    ∀ l : List Char, (∀ c ∈ l, isWs c = true) → wordsAux l [] = [] := by
  intro l
  induction l with
  | nil => intro _; rfl
  | cons c t ih =>
    intro h
    simp only [wordsAux, h c (by simp), if_pos, if_true]
    exact ih fun d hd => h d (by simp [hd])

/-- `csvParseCell` after `csvCell` collapses `""` and `"None"` to absence and
keeps everything else. -/
lemma csvParse_cell (x : Option String) :
    csvParseCell (csvCell x) = x.bind csvParseCell := by
  cases x with
  | none => decide
  | some s => rfl

/-- Membership survives `dropWhile`. -/
lemma mem_of_dropWhile {p : Char → Bool} {c : Char} :
    ∀ l : List Char, c ∈ l.dropWhile p → c ∈ l := by
  intro l
  induction l with
  | nil => simp
  | cons d t ih =>
    intro h
    cases hd : p d with
    | true =>
      simp only [List.dropWhile, hd] at h
      exact List.mem_cons_of_mem _ (ih h)
    | false =>
      simpa only [List.dropWhile, hd] using h

/-- A character of `replCh a b l` is `b` or a character of `l`. -/
lemma mem_replCh {a b c : Char} :
    ∀ l : List Char, c ∈ replCh a b l → c = b ∨ c ∈ l := by
  intro l
  induction l with
  | nil => simp [replCh]
  | cons d t ih =>
    intro h
    simp only [replCh, List.map_cons, List.mem_cons] at h
    rcases h with h | h
    · by_cases hd : d = a
      · rw [if_pos hd] at h; left; exact h
      · rw [if_neg hd] at h; right; exact List.mem_cons.mpr (Or.inl h)
    · rcases ih h with h' | h'
      · left; exact h'
      · right; exact List.mem_cons_of_mem _ h'

/-- `clean_text` sends a whitespace-only string to `none`. -/
lemma clean_text_all_ws (s : String) (h : ∀ c ∈ s.data, isWs c = true) :
    clean_text (some s) = none := by
  by_cases h1 : s = "null" ∨ s = ""
  · simp [clean_text, h1]
  · have htrim : ∀ c ∈ trimWs s.data, isWs c = true := by
      intro c hc
      apply h
      unfold trimWs at hc
      exact mem_of_dropWhile _ (List.mem_reverse.mp
        (mem_of_dropWhile _ (List.mem_reverse.mp hc)))
    have hrep : ∀ c ∈ replCh '\t' ' ' (replCh '\n' ' ' (trimWs s.data)),
        isWs c = true := by
      intro c hc
      rcases mem_replCh _ hc with h' | hc2
      · subst h'; decide
      · rcases mem_replCh _ hc2 with h' | hc3
        · subst h'; decide
        · exact htrim c hc3
    have hwords : pyWords (replCh '\t' ' ' (replCh '\n' ' ' (trimWs s.data))) = [] :=
      wordsAux_all_ws _ hrep
    have hcoll : collapseWs (replCh '\t' ' ' (replCh '\n' ' ' (trimWs s.data))) = [] := by
      unfold collapseWs
      rw [hwords]
      rfl
    simp only [clean_text, if_neg h1, hcoll]
    rfl

/-! ## Claim theorems: data layer -/

/-- Claim C1: every record returned by `process_raw_user_data` has a
non-empty email containing the character `"@"`; an entry whose email is
missing, null, empty after stripping, or without `"@"` yields no record at
all — it is dropped, never kept as a partial record. -/
theorem C1_extraction_emails_valid (raws : List RawUser) (saas now : String) :
    (∀ r ∈ process_raw_user_data raws saas now,
      r.email ≠ "" ∧ pyInChar '@' r.email = true) ∧
    (∀ u : RawUser,
      (u.email = none ∨ u.email = some JVal.null ∨
        ∃ e, u.email = some (JVal.str e) ∧
          (pyStrip e = "" ∨ pyInChar '@' (pyStrip e) = false)) →
      processEntry u now saas = none) := by
  constructor
  · intro r hr
    simp only [process_raw_user_data, List.mem_filterMap] at hr
    obtain ⟨u, hu, hpe⟩ := hr
    cases he : emailArg u.email with
    | none => simp [processEntry, he] at hpe
    | some e =>
      simp only [processEntry, he] at hpe
      split at hpe
      · exact absurd hpe (by simp)
      · next hcond =>
        push_neg at hcond
        obtain ⟨h1, h2⟩ := hcond
        have h2t : pyInChar '@' (pyStrip e) = true := by
          cases hb : pyInChar '@' (pyStrip e)
          · exact absurd hb h2
          · rfl
        have hre := Option.some.inj hpe
        subst hre
        exact ⟨h1, h2t⟩
  · rintro u (hu | hu | ⟨e, hu, hc⟩)
    · have h0 : pyStrip "" = "" := by decide
      simp [processEntry, hu, emailArg, h0]
    · simp [processEntry, hu, emailArg]
    · simp only [processEntry, hu, emailArg]
      rw [if_pos hc]

/-- Claim C1, witness: the theorem applied to a concrete batch with one
valid entry, and to a concrete entry whose email lacks `"@"`. -/
theorem C1_witness :
    pyInChar '@' (UserRecord.email
      {email := "a@x.com", name := some "John", status := some "Active",
       extracted_at := some "T", source_saas := some "P"}) = true ∧
    processEntry {email := some (JVal.str "bad")} "T" "P" = none :=
  ⟨((C1_extraction_emails_valid
      [{email := some (JVal.str " a@x.com "), name := some (JVal.str "John"),
        status := some (JVal.str "Active")},
       {email := some (JVal.str "bad")}] "P" "T").1
      {email := "a@x.com", name := some "John", status := some "Active",
       extracted_at := some "T", source_saas := some "P"} (by decide)).2,
   (C1_extraction_emails_valid [] "P" "T").2 {email := some (JVal.str "bad")}
     (Or.inr (Or.inr ⟨"bad", rfl, Or.inr (by decide)⟩))⟩

/-- Claim C9: for an entry that yields a record, a missing `status` key
gives the literal status `"Unknown"`, while a `status` key present with
null, `""` or `"null"` gives absence; the other optional fields never
default to `"Unknown"` — missing means absent. -/
theorem C9_status_unknown_default (u : RawUser) (now saas : String)
    (r : UserRecord) (h : processEntry u now saas = some r) :
    (u.status = none → r.status = some "Unknown") ∧
    (u.status = some JVal.null ∨ u.status = some (JVal.str "") ∨
      u.status = some (JVal.str "null") → r.status = none) ∧
    (u.name = none → r.name = none) ∧
    (u.role = none → r.role = none) ∧
    (u.last_login = none → r.last_login = none) := by
  cases he : emailArg u.email with
  | none => simp [processEntry, he] at h
  | some e =>
    simp only [processEntry, he] at h
    split at h
    · exact absurd h (by simp)
    · have hre := Option.some.inj h
      subst hre
      refine ⟨?_, ?_, ?_, ?_, ?_⟩
      · intro hs; simp only [hs, getStatusArg]; decide
      · rintro (hs | hs | hs) <;> simp only [hs, getStatusArg] <;> decide
      · intro hn; simp only [hn, getField]; rfl
      · intro hn; simp only [hn, getField]; rfl
      · intro hn; simp only [hn, getField]; rfl

/-- Claim C9, witness: the theorem applied to a concrete entry with no
`status` and no `name` key. -/
theorem C9_witness :
    UserRecord.status
      {email := "a@x.com", status := some "Unknown",
       extracted_at := some "T", source_saas := some "P"} = some "Unknown" ∧
    UserRecord.name
      {email := "a@x.com", status := some "Unknown",
       extracted_at := some "T", source_saas := some "P"} = none :=
  ⟨(C9_status_unknown_default {email := some (JVal.str "a@x.com")} "T" "P"
      {email := "a@x.com", status := some "Unknown", extracted_at := some "T",
       source_saas := some "P"} (by decide)).1 rfl,
   (C9_status_unknown_default {email := some (JVal.str "a@x.com")} "T" "P"
      {email := "a@x.com", status := some "Unknown", extracted_at := some "T",
       source_saas := some "P"} (by decide)).2.2.1 rfl⟩

/-- Claim C4, counterexample: `clean_text` is not idempotent.  On the input
`" null "` it returns the string `"null"`, but applying `clean_text` again
turns that into `None`. -/
theorem C4_not_idempotent_counterexample :
    clean_text (some " null ") = some "null" ∧
    clean_text (clean_text (some " null ")) = none := by
  constructor <;> decide

/-- Claim C4, amended: `clean_text` is idempotent at every input whose
cleaned form is not the literal string `"null"` (on `" null "` it is not);
and `clean_text` of `None`, of `""`, of `"null"`, and of any
whitespace-only string is absence. -/
theorem C4_clean_text_idem_and_absence :
    (∀ t : Option String, clean_text t ≠ some "null" →
      clean_text (clean_text t) = clean_text t) ∧
    clean_text none = none ∧
    clean_text (some "") = none ∧
    clean_text (some "null") = none ∧
    (∀ s : String, (∀ c ∈ s.data, isWs c = true) → clean_text (some s) = none) :=
  ⟨clean_text_idem, rfl, by decide, by decide, clean_text_all_ws⟩

/-- Claim C4, witness: the amended idempotence applied at `"  a  b "` and
the whitespace clause applied at `"  "`. -/
theorem C4_witness :
    clean_text (clean_text (some "  a  b ")) = clean_text (some "  a  b ") ∧
    clean_text (some "  ") = none :=
  ⟨C4_clean_text_idem_and_absence.1 (some "  a  b ") (by decide),
   C4_clean_text_idem_and_absence.2.2.2.2 "  " (by decide)⟩

/-- Claim C5: the JSON save-then-load round-trip reproduces every record
list field-for-field; an absent optional field is serialized as the
explicit JSON `null` marker and deserialized back to absence. -/
theorem C5_json_round_trip (users : List UserRecord) :
    load_existing_data_json (save_to_json users) = users := by
  induction users with
  | nil => rfl
  | cons u us ih =>
    show _ :: load_existing_data_json (save_to_json us) = u :: us
    rw [ih]

/-- Claim C10: loading a saved CSV applies `csvParseCell` to every cell, so
any cell holding `""` or the literal `"None"` deserializes to absence; in
particular a record whose `name` genuinely held the string `"None"` (or
whose `role` held `""`) does not round-trip — those fields come back
absent. -/
theorem C10_csv_none_collapse :
    (∀ users : List UserRecord,
      load_existing_data_csv (save_to_csv users) =
        users.map fun u =>
          { email := csvParseCell u.email
            name := u.name.bind csvParseCell
            role := u.role.bind csvParseCell
            last_login := u.last_login.bind csvParseCell
            status := u.status.bind csvParseCell
            extracted_at := u.extracted_at.bind csvParseCell
            source_saas := u.source_saas.bind csvParseCell }) ∧
    load_existing_data_csv (save_to_csv
      [{email := "a@x.com", name := some "None", role := some ""}]) =
      [{email := some "a@x.com", name := none, role := none,
        last_login := none, status := none, extracted_at := none,
        source_saas := none}] ∧
    (some "None" : Option String) ≠ none := by
  refine ⟨?_, by decide, by decide⟩
  intro users
  induction users with
  | nil => rfl
  | cons u us ih =>
    simp only [save_to_csv, load_existing_data_csv, List.map_cons] at ih ⊢
    simp only [csvParse_cell]
    rw [ih]

/-- Claim C8: `compare_datasets` reports added = emails₂ ∖ emails₁,
removed = emails₁ ∖ emails₂, and the deduplicated common-email count; on
A = {a@x.com, b@x.com} and B = {b@x.com, c@x.com} it reports added
{c@x.com}, removed {a@x.com} and one common user, and duplicate emails are
counted once. -/
theorem C8_compare_datasets_sets :
    (∀ d1 d2 : List UserRecord,
      (compare_datasets d1 d2).added_users = emailSet d2 \ emailSet d1 ∧
      (compare_datasets d1 d2).removed_users = emailSet d1 \ emailSet d2 ∧
      (compare_datasets d1 d2).common_users_count =
        (emailSet d1 ∩ emailSet d2).card) ∧
    (compare_datasets [{email := "a@x.com"}, {email := "b@x.com"}]
      [{email := "b@x.com"}, {email := "c@x.com"}]).added_users = {"c@x.com"} ∧
    (compare_datasets [{email := "a@x.com"}, {email := "b@x.com"}]
      [{email := "b@x.com"}, {email := "c@x.com"}]).removed_users = {"a@x.com"} ∧
    (compare_datasets [{email := "a@x.com"}, {email := "b@x.com"}]
      [{email := "b@x.com"}, {email := "c@x.com"}]).common_users_count = 1 ∧
    (compare_datasets [{email := "b@x.com"}, {email := "b@x.com"}]
      [{email := "b@x.com"}]).common_users_count = 1 :=
  ⟨fun _ _ => ⟨rfl, rfl, rfl⟩, by decide, by decide, by decide, by decide⟩

/-- Claim C3, counterexample: the validator uses substring containment, not
equality with the success token: the oracle response `"Unsuccessful"`
normalizes to `"UNSUCCESSFUL"`, which is not the token `"SUCCESS"` yet
contains it, so `validate_action_success` returns `true`. -/
theorem C3_substring_counterexample :
    validate_action_success (Except.ok "Unsuccessful") = true ∧
    pyUpper (pyStrip "Unsuccessful") = "UNSUCCESSFUL" := by
  constructor <;> decide

/-- Claim C3, amended: `validate_action_success` returns `false` whenever
the normalized (stripped, upper-cased) oracle response does not contain the
fixed token `"SUCCESS"` as a substring — including whenever the oracle call
itself fails — and in particular on `"FAILED — no new row appeared"`; the
outcome is a plain boolean, with no indeterminate third state. -/
theorem C3_validator_nonsuccess :
    (∀ u : Unit, validate_action_success (Except.error u) = false) ∧
    (∀ s : String,
      containsSeq successToken.data (pyUpper (pyStrip s)).data = false →
      validate_action_success (Except.ok s) = false) ∧
    validate_action_success (Except.ok "FAILED — no new row appeared") = false :=
  ⟨fun _ => rfl, fun _ h => h, by decide⟩

/-- Claim C3, witness: the amended theorem applied to the concrete response
`"no new row appeared"`. -/
theorem C3_witness :
    validate_action_success (Except.ok "no new row appeared") = false :=
  C3_validator_nonsuccess.2.1 "no new row appeared" (by decide)

/-! ## Claim theorems: workflow layer -/

/-- No oracle find issued along `afterAdd` resolves the add-user task. -/
lemma findsFor_add_afterAdd (env : ProvisionEnv) :
    findsFor OracleTask.addUserButton (afterAdd env).2 = [] := by
  unfold afterAdd
  by_cases h1 : env.fill_ok = false
  · simp [h1, findsFor]
  · by_cases h2 : candidateUsable (find_ui_elements env.submit_oracle)
    · by_cases h3 : env.submit_click_ok = false
      · simp [h1, h2, h3, findsFor]
      · simp [h1, h2, h3, findsFor]
    · simp [h1, h2, findsFor]

/-- A demo portal profile with a static add-user locator. -/
def cfgDemo : SaaSConfig :=
  {name := "Demo", login_url := "https://demo.example/login",
   username_selector := "input.user", password_selector := "input.pass",
   login_button_selector := "button.login",
   users_page_url := "https://demo.example/users",
   user_table_selector := "table.users",
   add_user_button := "button.add-member",
   user_form_selectors := [("email", "input.email"), ("name", "input.name")]}

/-- An oracle submit-button candidate with full confidence. -/
def submitElems : ElementsDict :=
  {primary_selector := some "button.save", element_type := some "button",
   confidence := some 1}

/-- A provision run in which every step succeeds, with the static add-user
locator working. -/
def envFullSuccess : ProvisionEnv :=
  {login_ok := true, nav_ok := true, static_click_ok := true,
   add_oracle := Except.error (), fallback_click_ok := false, fill_ok := true,
   submit_oracle := Except.ok (some submitElems),
   submit_click_ok := true, validate_resp := Except.ok "SUCCESS"}

/-- A provision run in which the static add-user click succeeds but the
form fill fails. -/
def envStaticOkFillFails : ProvisionEnv :=
  {login_ok := true, nav_ok := true, static_click_ok := true,
   add_oracle := Except.error (), fallback_click_ok := false, fill_ok := false,
   submit_oracle := Except.error (), submit_click_ok := false,
   validate_resp := Except.error ()}

/-- An oracle add-user candidate carrying confidence 0. -/
def lowConfElems : ElementsDict :=
  {primary_selector := some "button.add", confidence := some 0}

/-- A provision run whose static click fails and whose oracle fallback
returns a zero-confidence candidate. -/
def envFallbackLowConf : ProvisionEnv :=
  {login_ok := true, nav_ok := true, static_click_ok := false,
   add_oracle := Except.ok (some lowConfElems), fallback_click_ok := true,
   fill_ok := false, submit_oracle := Except.error (),
   submit_click_ok := false, validate_resp := Except.error ()}

/-- An oracle user-row candidate. -/
def rowElems : ElementsDict := {primary_selector := some "tr.user-row"}

/-- An oracle delete-button candidate. -/
def deleteElems : ElementsDict := {primary_selector := some "button.delete-user"}

/-- A deprovision run that reaches validation although the row click failed
and no confirmation dialog was found. -/
def denvSuccess : DeprovisionEnv :=
  {login_ok := true, nav_ok := true, row_oracle := Except.ok (some rowElems),
   row_click_ok := false, delete_oracle := Except.ok (some deleteElems),
   delete_click_ok := true, confirm_oracle := Except.error (),
   confirm_click_ok := false, validate_resp := Except.ok "SUCCESS"}

/-- Claim C2, counterexample: no confidence threshold exists.  A candidate
with confidence 0 and a primary selector is accepted (and
`find_ui_elements` passes it through unfiltered), while a candidate with
confidence 1 and no primary selector is rejected: acceptance is decided by
the presence of a primary selector alone, so no threshold value over the
confidence score can describe the acceptance rule. -/
theorem C2_no_threshold_counterexample :
    candidateUsable {primary_selector := some "button.add", confidence := some 0} = true ∧
    candidateUsable {confidence := some 1} = false ∧
    find_ui_elements (Except.ok (some lowConfElems)) = lowConfElems :=
  ⟨by decide, by decide, rfl⟩

/-- Claim C2, amended: acceptance of an oracle candidate depends only on the
presence of a `primary_selector`; the confidence score is never consulted
and there is no acceptance threshold.  In the provision fallback, a
candidate without a primary selector aborts the workflow, while one with a
primary selector is clicked whatever its confidence. -/
theorem C2_acceptance_ignores_confidence :
    (∀ e : ElementsDict, candidateUsable e = e.primary_selector.isSome) ∧
    (∀ (p : Option String) (a : Option (List String)) (t : Option String)
       (c c' : Option ℚ),
      candidateUsable
        {primary_selector := p, alternative_selectors := a,
         element_type := t, confidence := c} =
      candidateUsable
        {primary_selector := p, alternative_selectors := a,
         element_type := t, confidence := c'}) ∧
    (∀ (cfg : SaaSConfig) (env : ProvisionEnv),
      env.login_ok = true → env.nav_ok = true → env.static_click_ok = false →
      (candidateUsable (find_ui_elements env.add_oracle) = false →
        (provision_user cfg env).1 = false ∧
        (provision_user cfg env).2.length = 6) ∧
      (candidateUsable (find_ui_elements env.add_oracle) = true →
        Event.click ((find_ui_elements env.add_oracle).primary_selector.getD "")
          env.fallback_click_ok ∈ (provision_user cfg env).2)) := by
  refine ⟨?_, ?_, ?_⟩
  · intro e
    rcases e with ⟨p, a, t, c⟩
    cases p <;> simp [candidateUsable, dictTruthy]
  · intro p a t c c'
    cases p <;> simp [candidateUsable, dictTruthy]
  · intro cfg env h1 h2 h3
    constructor
    · intro h4
      constructor
      · simp [provision_user, h1, h2, h3, h4]
      · simp [provision_user, h1, h2, h3, h4]
    · intro h4
      by_cases h5 : env.fallback_click_ok
      · have h5t : env.fallback_click_ok = true := by simpa using h5
        rw [h5t]
        simp [provision_user, h1, h2, h3, h4, h5t]
      · have h5f : env.fallback_click_ok = false := by simpa using h5
        rw [h5f]
        simp [provision_user, h1, h2, h3, h4, h5f]

/-- Claim C2, witness: in the provision fallback, the zero-confidence
candidate of `envFallbackLowConf` is clicked. -/
theorem C2_witness :
    Event.click "button.add" true ∈ (provision_user cfgDemo envFallbackLowConf).2 :=
  (C2_acceptance_ignores_confidence.2.2 cfgDemo envFallbackLowConf rfl rfl rfl).2
    (by decide)

/-- Claim C6, counterexample: in a run whose static add-user click succeeds,
no resolution candidate is produced for the add-user task at all — in
particular none carrying confidence 1.0: the static locator is used
through a plain boolean click and accepted unconditionally, and the run
completes successfully. -/
theorem C6_no_confidence_counterexample :
    findsFor OracleTask.addUserButton (provision_user cfgDemo envFullSuccess).2 = [] ∧
    Event.click "button.add-member" true ∈ (provision_user cfgDemo envFullSuccess).2 ∧
    (provision_user cfgDemo envFullSuccess).1 = true :=
  ⟨by decide, by decide, by decide⟩

/-- Claim C6, amended: when the static add-user click succeeds, the Oracle
is never consulted for that task (the static locator is accepted
unconditionally, no confidence value being produced); when the static
click fails, the oracle fallback runs exactly once. -/
theorem C6_static_skips_oracle_single_fallback (cfg : SaaSConfig)
    (env : ProvisionEnv) (h1 : env.login_ok = true) (h2 : env.nav_ok = true) :
    (env.static_click_ok = true →
      findsFor OracleTask.addUserButton (provision_user cfg env).2 = [] ∧
      Event.click cfg.add_user_button true ∈ (provision_user cfg env).2) ∧
    (env.static_click_ok = false →
      (findsFor OracleTask.addUserButton (provision_user cfg env).2).length = 1) := by
  constructor
  · intro h3
    have hun : (provision_user cfg env).2 =
        [Event.login true, Event.navigate true, Event.snapshot SnapTag.before,
         Event.click cfg.add_user_button true] ++ (afterAdd env).2 := by
      simp [provision_user, h1, h2, h3]
    constructor
    · rw [hun]
      exact findsFor_add_afterAdd env
    · rw [hun]
      simp
  · intro h3
    by_cases h4 : candidateUsable (find_ui_elements env.add_oracle)
    · by_cases h5 : env.fallback_click_ok
      · have hun : (provision_user cfg env).2 =
            [Event.login true, Event.navigate true, Event.snapshot SnapTag.before,
             Event.click cfg.add_user_button false, Event.snapshot SnapTag.fallbackPage,
             Event.oracleFind OracleTask.addUserButton (find_ui_elements env.add_oracle),
             Event.click ((find_ui_elements env.add_oracle).primary_selector.getD "") true]
            ++ (afterAdd env).2 := by
          simp [provision_user, h1, h2, h3, h4, h5]
        have h6 : findsFor OracleTask.addUserButton (provision_user cfg env).2 =
            find_ui_elements env.add_oracle ::
              findsFor OracleTask.addUserButton (afterAdd env).2 := by
          rw [hun]
          rfl
        rw [h6, findsFor_add_afterAdd env]
        rfl
      · have h5f : env.fallback_click_ok = false := by simpa using h5
        simp [provision_user, h1, h2, h3, h4, h5f, findsFor]
    · have h4f : candidateUsable (find_ui_elements env.add_oracle) = false := by
        simpa using h4
      simp [provision_user, h1, h2, h3, h4f, findsFor]

/-- Claim C6, witness: the amended theorem applied to the all-success run
with a working static locator. -/
theorem C6_witness :
    findsFor OracleTask.addUserButton (provision_user cfgDemo envFullSuccess).2 = [] ∧
    Event.click cfgDemo.add_user_button true ∈ (provision_user cfgDemo envFullSuccess).2 :=
  (C6_static_skips_oracle_single_fallback cfgDemo envFullSuccess rfl rfl).1 rfl

/-- Claim C7, counterexample: after the static add-user click (a mutating
action) succeeds, a form-fill failure makes `provision_user` return early:
the complete trace ends at the failed fill, with no after snapshot and no
validation. -/
theorem C7_early_return_counterexample :
    provision_user cfgDemo envStaticOkFillFails =
      (false,
       [Event.login true, Event.navigate true, Event.snapshot SnapTag.before,
        Event.click "button.add-member" true, Event.fillForm false]) := by
  decide

/-- Claim C7, amended: once the final mutating click succeeds (submit in
provision, delete in deprovision), the workflow always captures the after
snapshot and runs validation — in deprovision even when the earlier row
click failed or no confirmation control was found; but a failure between an
earlier mutating action and that point (form-fill failure, unusable submit
or delete candidate, failed submit click) returns early without an after
snapshot. -/
theorem C7_after_snapshot_guarantee :
    (∀ (cfg : SaaSConfig) (env : ProvisionEnv),
      env.login_ok = true → env.nav_ok = true →
      (env.static_click_ok = true ∨
        (candidateUsable (find_ui_elements env.add_oracle) = true ∧
          env.fallback_click_ok = true)) →
      env.fill_ok = true →
      candidateUsable (find_ui_elements env.submit_oracle) = true →
      env.submit_click_ok = true →
      Event.snapshot SnapTag.afterAction ∈ (provision_user cfg env).2 ∧
      Event.validate (provision_user cfg env).1 ∈ (provision_user cfg env).2) ∧
    (∀ env : DeprovisionEnv,
      env.login_ok = true → env.nav_ok = true →
      candidateUsable (find_ui_elements env.row_oracle) = true →
      candidateUsable (find_ui_elements env.delete_oracle) = true →
      env.delete_click_ok = true →
      Event.snapshot SnapTag.afterAction ∈ (deprovision_user env).2 ∧
      Event.validate (deprovision_user env).1 ∈ (deprovision_user env).2) := by
  constructor
  · intro cfg env h1 h2 h3 h4 h5 h6
    have haft : afterAdd env =
        (validate_action_success env.validate_resp,
         [Event.fillForm true, Event.snapshot SnapTag.submitPage,
          Event.oracleFind OracleTask.submitButton (find_ui_elements env.submit_oracle),
          Event.click ((find_ui_elements env.submit_oracle).primary_selector.getD "") true,
          Event.snapshot SnapTag.afterAction,
          Event.validate (validate_action_success env.validate_resp)]) := by
      simp [afterAdd, h4, h5, h6]
    rcases h3 with h3 | ⟨h3a, h3b⟩
    · simp [provision_user, h1, h2, h3, haft]
    · by_cases hsc : env.static_click_ok
      · simp [provision_user, h1, h2, hsc, haft]
      · have hscf : env.static_click_ok = false := by simpa using hsc
        simp [provision_user, h1, h2, hscf, h3a, h3b, haft]
  · intro env h1 h2 h3 h4 h5
    by_cases hcf : candidateUsable (find_ui_elements env.confirm_oracle)
    · simp [deprovision_user, h1, h2, h3, h4, h5, hcf]
    · have hcff : candidateUsable (find_ui_elements env.confirm_oracle) = false := by
        simpa using hcf
      simp [deprovision_user, h1, h2, h3, h4, h5, hcff]

/-- Claim C7, witness: the amended theorem applied to the all-success
provision run and to a deprovision run whose row click failed. -/
theorem C7_witness :
    Event.snapshot SnapTag.afterAction ∈ (provision_user cfgDemo envFullSuccess).2 ∧
    Event.snapshot SnapTag.afterAction ∈ (deprovision_user denvSuccess).2 :=
  ⟨(C7_after_snapshot_guarantee.1 cfgDemo envFullSuccess rfl rfl (Or.inl rfl) rfl
      (by decide) rfl).1,
   (C7_after_snapshot_guarantee.2 denvSuccess rfl rfl (by decide) (by decide) rfl).1⟩
